import Mathlib

/-!
Shallow embedding of the outbound-dispatch core of `MTProtoService`
(`src/server.js`, canonical variant: lines 662-1122) together with the
error-classification part of the `/api/auth` HTTP handler (lines 262-301).

Conventions:
* JS millisecond timestamps (`Date.now()`) are `Int`.
* The external MTProto collaborator (`this.mtproto.call`) is modelled as a
  record of oracles (`Collab`); each collaborator call made by the code is
  also recorded in an event trace (`Event`), so statements such as "the
  send method is not invoked" can be expressed.
* JS exceptions become `Except` values; the distinct `Error` objects thrown
  locally become distinct constructors.
* `this.rateLimits` (a JS `Map` defaulting to `[]` via `get(k) || []`) is a
  total function `String -> List Int`.
-/

/-- A collaborator (`@mtproto/core`) error object: carries the
machine-readable `error_message` string. -/
structure MTErr where
  error_message : String
deriving DecidableEq

/-- One user record from `contacts.resolveUsername` (`result.users[0]`). -/
structure TgUser where
  id : Int
  access_hash : Int
deriving DecidableEq

/-- The collaborator result of `contacts.resolveUsername`. -/
structure ResolveResult where
  users : List TgUser
deriving DecidableEq

/-- The collaborator result of `messages.sendMessage`; the code reads its
`id` field (`result.id`), the message identifier. -/
structure SentMessage where
  id : Int
deriving DecidableEq

/-- The `user` object inside a successful `auth.signIn` result. -/
structure SignInUser where
  id : Int
  first_name : String
  username : String
deriving DecidableEq

/-- The collaborator result of `auth.signIn` (`result.user` is read). -/
structure SignInResult where
  user : SignInUser
deriving DecidableEq

/-- The collaborator result of the `users.getFullUser` identity probe. -/
structure FullUserResult where
  users : List SignInUser
deriving DecidableEq

/-- The `inputPeerUser` object built by `sendMessage` from a resolved user. -/
structure TgPeer where
  user_id : Int
  access_hash : Int
deriving DecidableEq

/-- The mutable fields of `MTProtoService` that the dispatch pipeline and
auth methods read or write: `this.isAuthenticated`, `this.lastActivity`,
`this.rateLimits`. -/
structure ServiceState where
  isAuthenticated : Bool
  lastActivity : Int
  rateLimits : String → List Int

/-- The service state right after the constructor runs (lines 733-735):
`isAuthenticated = false`, `lastActivity = Date.now()`, empty rate map. -/
def initState (t0 : Int) : ServiceState :=
  { isAuthenticated := false, lastActivity := t0, rateLimits := fun _ => [] }

/-- The external collaborator, one oracle per `this.mtproto.call` method the
dispatch pipeline uses.  `setTyping` receives the peer and the action name
(`sendMessageTypingAction` / `sendMessageCancelAction`); `send` receives the
peer and the message text. -/
structure Collab where
  resolve : String → Except MTErr ResolveResult
  setTyping : TgPeer → String → Except MTErr Unit
  send : TgPeer → String → Except MTErr SentMessage

/-- Trace of collaborator calls actually issued by the pipeline. -/
inductive Event where
  | resolveCall (username : String)
  | setTypingCall (peer : TgPeer) (action : String)
  | sendCall (peer : TgPeer) (message : String)
deriving DecidableEq

/-- Recognises `messages.sendMessage` calls in a trace. -/
def isSendCall : Event → Bool
  | Event.sendCall _ _ => true
  | _ => false

/-- `userLimits.filter(time => now - time < 3600000)`: the entries of a
stored per-key timestamp list still inside the trailing one-hour window
(line 851). -/
def recentOf (l : List Int) (now : Int) : List Int :=
  l.filter (fun time => decide (now - time < 3600000))

/-- `checkRateLimit(userId)` (lines 846-861).  Reads the stored list for the
key (missing key = `[]`), filters to the trailing hour, rejects without any
write when at least 30 entries remain, otherwise appends `now` and stores
the cleaned list back.  Returns the JS boolean together with the updated
service state. -/
def checkRateLimit (st : ServiceState) (now : Int) (userId : String) :
    Bool × ServiceState :=
  let userLimits := st.rateLimits userId
  let recentRequests := recentOf userLimits now
  if 30 ≤ recentRequests.length then
    (false, st)
  else
    (true, { st with rateLimits :=
      fun k => if k = userId then recentRequests ++ [now] else st.rateLimits k })

/-- JS `s.replace('@', '')`: removes the first occurrence of `'@'` (and only
the first) from the character list. -/
def removeFirstChar (c : Char) : List Char → List Char
  | [] => []
  | x :: xs => if x = c then xs else x :: removeFirstChar c xs

/-- `target.replace('@', '')` / `username.replace('@', '')` as used at
lines 972 and 995: drop the first `'@'` of the string, nothing else (no
case folding). -/
def jsReplaceAt (s : String) : String :=
  ⟨removeFirstChar '@' s.data⟩

/-- `resolveUsername(username)` (lines 970-990): strips the first `'@'`,
calls `contacts.resolveUsername`; a collaborator error propagates; an empty
`users` array becomes the local error "User @x not found"; otherwise
`users[0]` is returned.  Also returns the trace of collaborator calls. -/
inductive SendMsgErr where
  | rateLimited
  | userNotFound (username : String)
  | collab (e : MTErr)
deriving DecidableEq

def resolveUsername (c : Collab) (username : String) :
    List Event × Except SendMsgErr TgUser :=
  let cleanUsername := jsReplaceAt username
  match c.resolve cleanUsername with
  | Except.error e => ([Event.resolveCall cleanUsername], Except.error (SendMsgErr.collab e))
  | Except.ok r =>
    match r.users with
    | [] => ([Event.resolveCall cleanUsername], Except.error (SendMsgErr.userNotFound cleanUsername))
    | u :: _ => ([Event.resolveCall cleanUsername], Except.ok u)

/-- `simulateTyping(peer, message)` (lines 863-894).  The whole body is in a
`try`/`catch` whose handler only logs, so the function always returns; the
value is the trace of `messages.setTyping` calls attempted: the start call
always, and the cancel call when the start call did not throw (a failure of
the cancel call itself is likewise swallowed).  The sleeps carry no state. -/
def simulateTyping (c : Collab) (peer : TgPeer) : List Event :=
  match c.setTyping peer "sendMessageTypingAction" with
  | Except.error _ => [Event.setTypingCall peer "sendMessageTypingAction"]
  | Except.ok _ =>
      [Event.setTypingCall peer "sendMessageTypingAction",
       Event.setTypingCall peer "sendMessageCancelAction"]

/-- The typing-hold duration (lines 866-868):
`Math.min(Math.max(message.length * 50 + variance, 1000), 5000)` with
`variance = Math.random() * 1000`. -/
def typingDuration (len : Nat) (variance : ℚ) : ℚ :=
  min (max ((len : ℚ) * 50 + variance) 1000) 5000

/-- Modelled from the spec's words (§4.3): `clamp(x, lo, hi)`, the value `x`
forced into the interval `[lo, hi]`.  Written independently of the code's
`min`/`max` nesting so the code's formula can be compared against it. -/
def specClamp (x lo hi : ℚ) : ℚ :=
  max lo (min x hi)

/-- `sendMessage(target, message, options)` (lines 992-1049).  Order of
operations: clean the target key and consult `checkRateLimit` (throwing the
rate-limit `Error` on denial, before any collaborator call); resolve the
target; build the peer; run `simulateTyping` unless
`options.simulateTyping === false`; pre-send sleep; `messages.sendMessage`
(whose error the outer `catch` rethrows); post-send sleep; set
`this.lastActivity = Date.now()` (`tEnd` here); return the collaborator
result.  `tNow` is the clock value used by the rate check. -/
def sendMessage (st : ServiceState) (tNow tEnd : Int) (c : Collab)
    (target message : String) (simTyping : Bool) :
    ServiceState × Except SendMsgErr SentMessage × List Event :=
  let cleanTarget := jsReplaceAt target
  match checkRateLimit st tNow cleanTarget with
  | (false, st1) => (st1, Except.error SendMsgErr.rateLimited, [])
  | (true, st1) =>
    match resolveUsername c target with
    | (evs, Except.error e) => (st1, Except.error e, evs)
    | (evs, Except.ok user) =>
      let peer : TgPeer := { user_id := user.id, access_hash := user.access_hash }
      let typingEvs := if simTyping then simulateTyping c peer else []
      let evs2 := evs ++ typingEvs ++ [Event.sendCall peer message]
      match c.send peer message with
      | Except.error e => (st1, Except.error (SendMsgErr.collab e), evs2)
      | Except.ok m => ({ st1 with lastActivity := tEnd }, Except.ok m, evs2)

/-- The error surfaced by `initialize()` (lines 896-920): the locally thrown
`Error('Authentication required')` on `AUTH_KEY_UNREGISTERED`, or the
original collaborator error rethrown. -/
inductive InitErr where
  | authRequired
  | collab (e : MTErr)
deriving DecidableEq

/-- `initialize()` (lines 896-920), modelled over the outcome of the
`users.getFullUser` probe.  Success sets `isAuthenticated := true` and
returns the probe result.  The error `AUTH_KEY_UNREGISTERED` (compared with
`===`) sets `isAuthenticated := false` and throws the distinct local
`Error('Authentication required')`; any other probe error is rethrown
unchanged. -/
def initService (st : ServiceState) (probe : Except MTErr FullUserResult) :
    ServiceState × Except InitErr FullUserResult :=
  match probe with
  | Except.ok r => ({ st with isAuthenticated := true }, Except.ok r)
  | Except.error e =>
    if e.error_message = "AUTH_KEY_UNREGISTERED" then
      ({ st with isAuthenticated := false }, Except.error InitErr.authRequired)
    else
      (st, Except.error (InitErr.collab e))

/-- `signIn(phoneNumber, phoneCodeHash, phoneCode)` (lines 950-968), modelled
over the outcome of the `auth.signIn` collaborator call.  There is no local
state check of any kind: the collaborator is invoked unconditionally; on
success `isAuthenticated := true` and the result is returned; the `catch`
block logs and rethrows the error unchanged, touching no state. -/
def signIn (st : ServiceState) (callResult : Except MTErr SignInResult) :
    ServiceState × Except MTErr SignInResult :=
  match callResult with
  | Except.ok r => ({ st with isAuthenticated := true }, Except.ok r)
  | Except.error e => (st, Except.error e)

/-- JS `String.prototype.includes` over character lists: does `pat` occur
contiguously in `l`? -/
def listStartsWith : List Char → List Char → Bool
  | _, [] => true
  | [], _ :: _ => false
  | a :: as, b :: bs => a = b && listStartsWith as bs

def listIncludes (l pat : List Char) : Bool :=
  match l with
  | [] => pat.isEmpty
  | _ :: tl => listStartsWith l pat || listIncludes tl pat

def strIncludes (s pat : String) : Bool :=
  listIncludes s.data pat.data

/-- Leading-digit parse standing in for JS `parseInt` on the code strings the
handler feeds it (`FLOOD_WAIT_n` pieces): `none` when the string does not
start with a digit (JS `NaN`). -/
def parseLeadingNat (s : String) : Option Nat :=
  let ds := s.data.takeWhile (fun ch => ch.isDigit)
  if ds.isEmpty then none
  else some (ds.foldl (fun acc ch => acc * 10 + (ch.toNat - 48)) 0)

/-- `parseInt(error.error_message.split('_')[2]) || 60` (line 289): the third
underscore-separated piece parsed as a number, with `60` when the piece is
missing, non-numeric, or parses to the falsy `0`. -/
def parseFloodWait (em : String) : Nat :=
  match (em.splitOn "_").get? 2 with
  | none => 60
  | some piece =>
    match parseLeadingNat piece with
    | none => 60
    | some 0 => 60
    | some n => n

/-- The classified HTTP responses of the `/api/auth` catch block
(lines 262-301). -/
inductive AuthErrorResponse where
  | invalidCode
  | codeExpired
  | passwordRequired
  | floodWait (retryAfter : Nat)
  | authFailed
deriving DecidableEq

/-- The `/api/auth` catch block (lines 262-301): successive
`error.error_message?.includes(...)` tests, in source order; an error
without an `error_message` (or matching nothing) falls through to the
generic 500 response. -/
def classifyAuthError (error_message : Option String) : AuthErrorResponse :=
  match error_message with
  | none => AuthErrorResponse.authFailed
  | some em =>
    if strIncludes em "PHONE_CODE_INVALID" then AuthErrorResponse.invalidCode
    else if strIncludes em "PHONE_CODE_EXPIRED" then AuthErrorResponse.codeExpired
    else if strIncludes em "SESSION_PASSWORD_NEEDED" then AuthErrorResponse.passwordRequired
    else if strIncludes em "FLOOD_WAIT" then AuthErrorResponse.floodWait (parseFloodWait em)
    else AuthErrorResponse.authFailed

/-- The HTTP status each classified `/api/auth` response is sent with:
note `SESSION_PASSWORD_NEEDED` is answered with `200`. -/
def statusOfAuthResponse : AuthErrorResponse → Nat
  | AuthErrorResponse.invalidCode => 400
  | AuthErrorResponse.codeExpired => 400
  | AuthErrorResponse.passwordRequired => 200
  | AuthErrorResponse.floodWait _ => 429
  | AuthErrorResponse.authFailed => 500

/-- Number of stored timestamps inside the trailing 3600-second window ending
at `T`. -/
def windowCount (T : Int) (l : List Int) : Nat :=
  (l.filter (fun t => decide (T - 3600000 < t ∧ t ≤ T))).length

/-- A sequence of `checkRateLimit` admit calls (key, clock value) run from
the freshly constructed state. -/
def runCalls (t0 : Int) (calls : List (String × Int)) : ServiceState :=
  calls.foldl (fun s c => (checkRateLimit s c.2 c.1).2) (initState t0)

/-! ### Helper lemmas about the rate limiter -/

lemma checkRateLimit_of_full (st : ServiceState) (now : Int) (u : String)
    (h : 30 ≤ (recentOf (st.rateLimits u) now).length) :
    checkRateLimit st now u = (false, st) := by
  simp [checkRateLimit, h]

lemma checkRateLimit_of_free (st : ServiceState) (now : Int) (u : String)
    (h : ¬ 30 ≤ (recentOf (st.rateLimits u) now).length) :
    checkRateLimit st now u =
      (true, { st with rateLimits :=
        fun k => if k = u then recentOf (st.rateLimits u) now ++ [now]
                 else st.rateLimits k }) := by
  simp [checkRateLimit, h]

lemma checkRateLimit_fst_false_iff (st : ServiceState) (now : Int) (u : String) :
    (checkRateLimit st now u).1 = false ↔
      30 ≤ (recentOf (st.rateLimits u) now).length := by
  by_cases h : 30 ≤ (recentOf (st.rateLimits u) now).length <;>
    simp [checkRateLimit, h]

/-- The invariant carried through every admit run: no stored per-key list
ever exceeds 30 entries. -/
def RateInv (st : ServiceState) : Prop :=
  ∀ k, (st.rateLimits k).length ≤ 30

lemma rateInv_step (st : ServiceState) (now : Int) (u : String)
    (h : RateInv st) : RateInv (checkRateLimit st now u).2 := by
  by_cases hc : 30 ≤ (recentOf (st.rateLimits u) now).length
  · rw [checkRateLimit_of_full st now u hc]; exact h
  · rw [checkRateLimit_of_free st now u hc]
    intro k
    by_cases hk : k = u
    · simp [hk]
      omega
    · simpa [hk] using h k

lemma foldl_rateInv (calls : List (String × Int)) :
    ∀ st : ServiceState, RateInv st →
      RateInv (calls.foldl (fun s c => (checkRateLimit s c.2 c.1).2) st) := by
  induction calls with
  | nil => intro st h; exact h
  | cons c cs ih =>
      intro st h
      exact ih _ (rateInv_step st c.2 c.1 h)

lemma runCalls_rateInv (t0 : Int) (calls : List (String × Int)) :
    RateInv (runCalls t0 calls) := by
  apply foldl_rateInv
  intro k
  simp [initState]

lemma windowCount_le_length (T : Int) (l : List Int) :
    windowCount T l ≤ l.length :=
  List.length_filter_le _ l

/-! ### Claim theorems: rate limiter -/

/-- C1: `checkRateLimit` first drops stored entries outside the trailing
3600000 ms window, rejects (returning `false`, writing nothing) when at
least 30 entries remain, and otherwise appends the current timestamp and
accepts; consequently, over every sequence of admit calls from the fresh
state, no per-key stored sequence ever holds more than 30 admitted
timestamps within any trailing 3600-second window. -/
theorem checkRateLimit_step_and_window_invariant :
    (∀ (st : ServiceState) (now : Int) (u : String),
      checkRateLimit st now u =
        if 30 ≤ (recentOf (st.rateLimits u) now).length then (false, st)
        else (true, { st with rateLimits :=
          fun k => if k = u then recentOf (st.rateLimits u) now ++ [now]
                   else st.rateLimits k })) ∧
    (∀ (t0 : Int) (calls : List (String × Int)) (k : String) (T : Int),
      windowCount T ((runCalls t0 calls).rateLimits k) ≤ 30) := by
  constructor
  · intro st now u
    by_cases h : 30 ≤ (recentOf (st.rateLimits u) now).length
    · rw [checkRateLimit_of_full st now u h, if_pos h]
    · rw [checkRateLimit_of_free st now u h, if_neg h]
  · intro t0 calls k T
    exact le_trans (windowCount_le_length T _) (runCalls_rateInv t0 calls k)

/-- C7: whenever `checkRateLimit` rejects, the stored timestamp sequences of
the rejected key and of every other key are exactly what they were before
the call (no timestamp is recorded at all), and repeating the rejected call
at the same clock value gives the same (rejecting) answer. -/
theorem checkRateLimit_reject_frame (st : ServiceState) (now : Int) (u : String)
    (h : (checkRateLimit st now u).1 = false) :
    (checkRateLimit st now u).2 = st ∧
    (∀ k, ((checkRateLimit st now u).2).rateLimits k = st.rateLimits k) ∧
    checkRateLimit ((checkRateLimit st now u).2) now u = checkRateLimit st now u := by
  have hfull := (checkRateLimit_fst_false_iff st now u).mp h
  have he := checkRateLimit_of_full st now u hfull
  exact ⟨by rw [he], fun k => by rw [he], by rw [he]; exact he⟩

/-- A state whose stored list for `"alice"` already holds 30 fresh
timestamps. -/
def st30 : ServiceState :=
  { isAuthenticated := false, lastActivity := 0,
    rateLimits := fun k => if k = "alice" then List.replicate 30 0 else [] }

/-- Witness for C7: from `st30` the call at clock `0` for key `"alice"` is
rejected, and the theorem yields that the state is unchanged. -/
theorem checkRateLimit_reject_frame_witness :
    (checkRateLimit st30 0 "alice").1 = false ∧
    (checkRateLimit st30 0 "alice").2 = st30 :=
  ⟨by decide, (checkRateLimit_reject_frame st30 0 "alice" (by decide)).1⟩

/-! ### Claim theorems: behavioral scheduler typing duration -/

lemma minMax_eq_maxMin (x lo hi : ℚ) (h : lo ≤ hi) :
    min (max x lo) hi = max lo (min x hi) := by
  rcases le_total x lo with h1 | h1
  · rw [max_eq_right h1, min_eq_left h, min_eq_left (h1.trans h), max_eq_left h1]
  · rcases le_total x hi with h2 | h2
    · rw [max_eq_left h1, min_eq_left h2, max_eq_right h1]
    · rw [max_eq_left h1, min_eq_right h2, max_eq_right h]

/-- C4: for every message length and every random draw `r` in `[0, 1000)`
the typing-hold duration equals `clamp(len * 50 + r, 1000, 5000)`; it is
exactly `1000` for length 0 and exactly `5000` for length 200, independent
of `r`. -/
theorem typingDuration_clamp (len : Nat) (r : ℚ) (h0 : 0 ≤ r) (h1 : r < 1000) :
    typingDuration len r = specClamp ((len : ℚ) * 50 + r) 1000 5000 ∧
    typingDuration 0 r = 1000 ∧
    typingDuration 200 r = 5000 := by
  refine ⟨?_, ?_, ?_⟩
  · unfold typingDuration specClamp
    exact minMax_eq_maxMin _ _ _ (by norm_num)
  · unfold typingDuration
    have hz : ((0 : Nat) : ℚ) * 50 + r = r := by norm_num
    rw [hz, max_eq_right h1.le, min_eq_left (by norm_num)]
  · unfold typingDuration
    have hh : ((200 : Nat) : ℚ) * 50 + r = 10000 + r := by norm_num
    rw [hh, max_eq_left (by linarith), min_eq_right (by linarith)]

/-- Witness for C4 at the concrete draw `r = 1/2`. -/
theorem typingDuration_clamp_witness :
    (0 : ℚ) ≤ 1/2 ∧ (1/2 : ℚ) < 1000 ∧
    typingDuration 7 (1/2) = specClamp (((7 : Nat) : ℚ) * 50 + 1/2) 1000 5000 ∧
    typingDuration 0 (1/2) = 1000 ∧
    typingDuration 200 (1/2) = 5000 := by
  have h := typingDuration_clamp 7 (1/2) (by norm_num) (by norm_num)
  have h0 := typingDuration_clamp 0 (1/2) (by norm_num) (by norm_num)
  have h200 := typingDuration_clamp 200 (1/2) (by norm_num) (by norm_num)
  exact ⟨by norm_num, by norm_num, h.1, h0.2.1, h200.2.2⟩

/-! ### Claim theorems: auth state machine -/

/-- Counterexample for C2 as stated: it is not true that every `signIn`
call made while the service is authenticated is rejected with unchanged
state — the code performs no local state check, so from an authenticated
state a collaborator success makes the call succeed. -/
theorem signIn_guard_counterexample :
    ¬ (∀ (st : ServiceState) (callResult : Except MTErr SignInResult),
        st.isAuthenticated = true →
          (signIn st callResult).1 = st ∧
          ∃ e, (signIn st callResult).2 = Except.error e) := by
  intro h
  have h2 := h { isAuthenticated := true, lastActivity := 0, rateLimits := fun _ => [] }
      (Except.ok { user := { id := 1, first_name := "a", username := "b" } }) rfl
  rcases h2.2 with ⟨e, he⟩
  simp [signIn] at he

/-- C2 amended: `signIn` performs no local state-machine check at all — it
invokes the collaborator unconditionally from any state; it succeeds exactly
when the collaborator call succeeds (then setting `isAuthenticated`), and on
collaborator failure the error propagates with every piece of local state
(authentication flag, last-activity, rate-limiter map) unchanged. -/
theorem signIn_no_state_guard (st : ServiceState) :
    (∀ r, signIn st (Except.ok r) =
        ({ st with isAuthenticated := true }, Except.ok r)) ∧
    (∀ e, signIn st (Except.error e) = (st, Except.error e)) :=
  ⟨fun _ => rfl, fun _ => rfl⟩

/-- An authenticated service state with empty rate map. -/
def stAuth : ServiceState :=
  { isAuthenticated := true, lastActivity := 0, rateLimits := fun _ => [] }

/-- C5: when the identity probe of `initialize()` fails with exactly
`AUTH_KEY_UNREGISTERED`, the service records `isAuthenticated = false` and
surfaces the distinct local `Authentication required` signal (a value
different from every wrapped collaborator failure); any other probe error
propagates unchanged as a collaborator failure. -/
theorem initService_authRequired (st : ServiceState) (e : MTErr) :
    (e.error_message = "AUTH_KEY_UNREGISTERED" →
      initService st (Except.error e) =
        ({ st with isAuthenticated := false }, Except.error InitErr.authRequired) ∧
      (initService st (Except.error e)).1.isAuthenticated = false ∧
      InitErr.authRequired ≠ InitErr.collab e) ∧
    (e.error_message ≠ "AUTH_KEY_UNREGISTERED" →
      initService st (Except.error e) = (st, Except.error (InitErr.collab e))) := by
  constructor
  · intro h
    refine ⟨by simp [initService, h], by simp [initService, h], ?_⟩
    intro hc
    exact InitErr.noConfusion hc
  · intro h
    simp [initService, h]

/-- Witness for C5: the probe failing with `AUTH_KEY_UNREGISTERED` from an
authenticated state, and with an unrelated error code. -/
theorem initService_authRequired_witness :
    (MTErr.mk "AUTH_KEY_UNREGISTERED").error_message = "AUTH_KEY_UNREGISTERED" ∧
    initService stAuth (Except.error ⟨"AUTH_KEY_UNREGISTERED"⟩) =
      ({ stAuth with isAuthenticated := false }, Except.error InitErr.authRequired) ∧
    (MTErr.mk "FLOOD_WAIT_5").error_message ≠ "AUTH_KEY_UNREGISTERED" ∧
    initService stAuth (Except.error ⟨"FLOOD_WAIT_5"⟩) =
      (stAuth, Except.error (InitErr.collab ⟨"FLOOD_WAIT_5"⟩)) := by
  refine ⟨rfl, ?_, by decide, ?_⟩
  · exact ((initService_authRequired stAuth ⟨"AUTH_KEY_UNREGISTERED"⟩).1 rfl).1
  · exact (initService_authRequired stAuth ⟨"FLOOD_WAIT_5"⟩).2 (by decide)

/-- C6: when the collaborator's `auth.signIn` call fails with
`SESSION_PASSWORD_NEEDED`, `signIn` leaves every piece of service state
unchanged (in particular it does not become authenticated) and rethrows the
error, which the `/api/auth` handler classifies as the distinct
`password_required` response sent with HTTP status 200 — a non-error
status. -/
theorem signIn_twoFactor_nonFatal (st : ServiceState) :
    signIn st (Except.error ⟨"SESSION_PASSWORD_NEEDED"⟩) =
      (st, Except.error ⟨"SESSION_PASSWORD_NEEDED"⟩) ∧
    (signIn st (Except.error ⟨"SESSION_PASSWORD_NEEDED"⟩)).1.isAuthenticated =
      st.isAuthenticated ∧
    classifyAuthError (some "SESSION_PASSWORD_NEEDED") =
      AuthErrorResponse.passwordRequired ∧
    statusOfAuthResponse AuthErrorResponse.passwordRequired = 200 ∧
    statusOfAuthResponse AuthErrorResponse.passwordRequired < 400 :=
  ⟨rfl, rfl, by decide, rfl, by decide⟩

/-! ### Claim theorems: dispatch pipeline -/

/-- Collaborator stub that resolves every username to one user and accepts
sends with message id 99. -/
def stubCollab : Collab :=
  { resolve := fun _ => Except.ok { users := [{ id := 1, access_hash := 2 }] },
    setTyping := fun _ _ => Except.ok (),
    send := fun _ _ => Except.ok { id := 99 } }

/-- Collaborator stub whose resolution yields no users. -/
def stubCollabNoUser : Collab :=
  { resolve := fun _ => Except.ok { users := [] },
    setTyping := fun _ _ => Except.ok (),
    send := fun _ _ => Except.ok { id := 99 } }

/-- C3: `sendMessage` consults the rate limiter before any collaborator
call — on denial it returns the rate-limit error with an empty collaborator
trace (no resolution, no send) and untouched state; when the whole pipeline
succeeds it returns the collaborator's result (carrying the message id) and
sets the last-activity timestamp. -/
theorem sendMessage_pipeline (st : ServiceState) (tNow tEnd : Int) (c : Collab)
    (target message : String) (simTyping : Bool) :
    ((checkRateLimit st tNow (jsReplaceAt target)).1 = false →
      sendMessage st tNow tEnd c target message simTyping =
        (st, Except.error SendMsgErr.rateLimited, [])) ∧
    (∀ u us m, (checkRateLimit st tNow (jsReplaceAt target)).1 = true →
      c.resolve (jsReplaceAt target) = Except.ok { users := u :: us } →
      c.send { user_id := u.id, access_hash := u.access_hash } message = Except.ok m →
      (sendMessage st tNow tEnd c target message simTyping).2.1 = Except.ok m ∧
      (sendMessage st tNow tEnd c target message simTyping).1.lastActivity = tEnd) := by
  constructor
  · intro h
    have hfull := (checkRateLimit_fst_false_iff st tNow (jsReplaceAt target)).mp h
    have he := checkRateLimit_of_full st tNow (jsReplaceAt target) hfull
    simp [sendMessage, he]
  · intro u us m hT hres hsend
    have hnf : ¬ 30 ≤ (recentOf (st.rateLimits (jsReplaceAt target)) tNow).length := by
      intro hc
      rw [checkRateLimit_of_full st tNow (jsReplaceAt target) hc] at hT
      exact Bool.noConfusion hT
    have he := checkRateLimit_of_free st tNow (jsReplaceAt target) hnf
    cases simTyping <;>
      simp [sendMessage, he, resolveUsername, hres, hsend]

/-- Witness for C3: the 31st call within the hour to `"alice"` is refused
with no collaborator call, while from the fresh state the pipeline succeeds,
returns id 99 and advances last-activity. -/
theorem sendMessage_pipeline_witness :
    ((checkRateLimit st30 0 (jsReplaceAt "@alice")).1 = false ∧
      sendMessage st30 0 5 stubCollab "@alice" "hi" true =
        (st30, Except.error SendMsgErr.rateLimited, [])) ∧
    ((checkRateLimit (initState 0) 0 (jsReplaceAt "@alice")).1 = true ∧
      (sendMessage (initState 0) 0 5 stubCollab "@alice" "hi" true).2.1 =
        Except.ok { id := 99 } ∧
      (sendMessage (initState 0) 0 5 stubCollab "@alice" "hi" true).1.lastActivity = 5) := by
  refine ⟨⟨by decide, ?_⟩, ⟨by decide, ?_, ?_⟩⟩
  · exact (sendMessage_pipeline st30 0 5 stubCollab "@alice" "hi" true).1 (by decide)
  · exact ((sendMessage_pipeline (initState 0) 0 5 stubCollab "@alice" "hi" true).2
      { id := 1, access_hash := 2 } [] { id := 99 } (by decide) rfl rfl).1
  · exact ((sendMessage_pipeline (initState 0) 0 5 stubCollab "@alice" "hi" true).2
      { id := 1, access_hash := 2 } [] { id := 99 } (by decide) rfl rfl).2

lemma sendMessage_rateLimits_after_accept (st : ServiceState) (tNow tEnd : Int)
    (c : Collab) (target message : String) (simTyping : Bool)
    (hnf : ¬ 30 ≤ (recentOf (st.rateLimits (jsReplaceAt target)) tNow).length) :
    (sendMessage st tNow tEnd c target message simTyping).1.rateLimits =
      fun k => if k = jsReplaceAt target
               then recentOf (st.rateLimits (jsReplaceAt target)) tNow ++ [tNow]
               else st.rateLimits k := by
  have he := checkRateLimit_of_free st tNow (jsReplaceAt target) hnf
  rcases hres : resolveUsername c target with ⟨evs, res⟩
  cases res with
  | error e => simp [sendMessage, he, hres]
  | ok u =>
      cases hsend : c.send { user_id := u.id, access_hash := u.access_hash } message with
      | error e2 => simp [sendMessage, he, hres, hsend]
      | ok m => simp [sendMessage, he, hres, hsend]

/-- C10: once the rate limiter has admitted a `sendMessage` call, the
recorded admission timestamp stays in the per-key sequence even when the
pipeline fails afterwards (unresolvable recipient or a failing send): the
operation is not atomic, and the failed attempt counts against the
per-recipient ceiling. -/
theorem sendMessage_failed_attempt_counted (st : ServiceState) (tNow tEnd : Int)
    (c : Collab) (target message : String) (simTyping : Bool)
    (hA : (checkRateLimit st tNow (jsReplaceAt target)).1 = true)
    (hF : ∃ e, (sendMessage st tNow tEnd c target message simTyping).2.1 =
      Except.error e) :
    (sendMessage st tNow tEnd c target message simTyping).1.rateLimits
        (jsReplaceAt target) =
      recentOf (st.rateLimits (jsReplaceAt target)) tNow ++ [tNow] ∧
    tNow ∈ (sendMessage st tNow tEnd c target message simTyping).1.rateLimits
        (jsReplaceAt target) := by
  have hnf : ¬ 30 ≤ (recentOf (st.rateLimits (jsReplaceAt target)) tNow).length := by
    intro hc
    rw [checkRateLimit_of_full st tNow (jsReplaceAt target) hc] at hA
    exact Bool.noConfusion hA
  rw [sendMessage_rateLimits_after_accept st tNow tEnd c target message simTyping hnf]
  constructor
  · simp
  · simp

/-- Witness for C10: from the fresh state, a send to `"@alice"` against a
collaborator that cannot resolve the name fails, yet timestamp `0` is now
stored under key `"alice"`. -/
theorem sendMessage_failed_attempt_counted_witness :
    (checkRateLimit (initState 0) 0 (jsReplaceAt "@alice")).1 = true ∧
    (sendMessage (initState 0) 0 5 stubCollabNoUser "@alice" "hi" true).2.1 =
      Except.error (SendMsgErr.userNotFound "alice") ∧
    (0 : Int) ∈ (sendMessage (initState 0) 0 5 stubCollabNoUser "@alice" "hi" true).1.rateLimits
      (jsReplaceAt "@alice") := by
  refine ⟨by decide, rfl, ?_⟩
  exact (sendMessage_failed_attempt_counted (initState 0) 0 5 stubCollabNoUser
    "@alice" "hi" true (by decide)
    ⟨SendMsgErr.userNotFound "alice", rfl⟩).2

lemma filter_isSendCall_simulateTyping (c : Collab) (peer : TgPeer) :
    (simulateTyping c peer).filter isSendCall = [] := by
  unfold simulateTyping
  cases c.setTyping peer "sendMessageTypingAction" <;> simp [isSendCall]

/-- C9: failures of the typing-simulation phase never reach the
`sendMessage` caller — replacing the collaborator's typing-indicator
behavior by anything (including always throwing) changes neither the
resulting state nor the returned result, and the actual send calls issued
are identical, so dispatch always proceeds past the typing phase. -/
theorem sendMessage_typing_failures_swallowed (st : ServiceState)
    (tNow tEnd : Int) (c : Collab) (target message : String)
    (f : TgPeer → String → Except MTErr Unit) :
    (sendMessage st tNow tEnd { c with setTyping := f } target message true).1 =
      (sendMessage st tNow tEnd c target message true).1 ∧
    (sendMessage st tNow tEnd { c with setTyping := f } target message true).2.1 =
      (sendMessage st tNow tEnd c target message true).2.1 ∧
    ((sendMessage st tNow tEnd { c with setTyping := f } target message true).2.2.filter
        isSendCall) =
      ((sendMessage st tNow tEnd c target message true).2.2.filter isSendCall) := by
  by_cases hLim : 30 ≤ (recentOf (st.rateLimits (jsReplaceAt target)) tNow).length
  · have he := checkRateLimit_of_full st tNow (jsReplaceAt target) hLim
    refine ⟨?_, ?_, ?_⟩ <;> simp [sendMessage, he]
  · have he := checkRateLimit_of_free st tNow (jsReplaceAt target) hLim
    rcases hres : resolveUsername c target with ⟨evs, res⟩
    have hres2 : resolveUsername { c with setTyping := f } target = (evs, res) := hres
    cases res with
    | error e => refine ⟨?_, ?_, ?_⟩ <;> simp [sendMessage, he, hres, hres2]
    | ok u =>
        cases hsend : c.send { user_id := u.id, access_hash := u.access_hash } message with
        | error e2 =>
            refine ⟨?_, ?_, ?_⟩ <;>
              simp [sendMessage, he, hres, hres2, hsend,
                filter_isSendCall_simulateTyping, isSendCall]
        | ok m =>
            refine ⟨?_, ?_, ?_⟩ <;>
              simp [sendMessage, he, hres, hres2, hsend,
                filter_isSendCall_simulateTyping, isSendCall]

/-! ### Claim theorems: recipient key normalization -/

/-- Counterexample for C8 as stated: the rate-limiter key is NOT lowercased.
A send to `"@Alice"` records its admission under key `"Alice"`, leaving the
window of `"alice"` empty, so targets differing only in letter case are
counted in different windows. -/
theorem sendMessage_key_counterexample :
    jsReplaceAt "@Alice" ≠ jsReplaceAt "@alice" ∧
    (sendMessage (initState 0) 0 5 stubCollab "@Alice" "hi" true).1.rateLimits
      "alice" = [] ∧
    (sendMessage (initState 0) 0 5 stubCollab "@Alice" "hi" true).1.rateLimits
      "Alice" = [0] := by
  refine ⟨by decide, rfl, rfl⟩

lemma removeFirstChar_of_not_mem (c : Char) (l : List Char) (h : c ∉ l) :
    removeFirstChar c l = l := by
  induction l with
  | nil => rfl
  | cons x xs ih =>
      rw [List.mem_cons, not_or] at h
      simp only [removeFirstChar]
      rw [if_neg (fun hx => h.1 hx.symm), ih h.2]

/-- C8 amended: the rate-limiter partition key used by `sendMessage` is the
target with its first `'@'` occurrence removed and no case normalization:
two targets that differ only in a leading `'@'` behave identically (same
key, same window), while targets differing in letter case use different
keys. -/
theorem sendMessage_atPrefix_sameKey (t1 t2 : String)
    (hdata : t1.data = '@' :: t2.data) (hno : '@' ∉ t2.data) :
    jsReplaceAt t1 = jsReplaceAt t2 ∧
    ∀ (st : ServiceState) (tNow tEnd : Int) (c : Collab) (message : String)
      (simTyping : Bool),
      sendMessage st tNow tEnd c t1 message simTyping =
        sendMessage st tNow tEnd c t2 message simTyping := by
  have hkey : jsReplaceAt t1 = jsReplaceAt t2 := by
    unfold jsReplaceAt
    rw [hdata, removeFirstChar_of_not_mem '@' t2.data hno]
    simp [removeFirstChar]
  refine ⟨hkey, ?_⟩
  intro st tNow tEnd c message simTyping
  have hresu : resolveUsername c t1 = resolveUsername c t2 := by
    unfold resolveUsername
    rw [hkey]
  unfold sendMessage
  rw [hkey, hresu]

/-- Witness for C8 amended: `"@alice"` and `"alice"` are interchangeable for
the whole dispatch. -/
theorem sendMessage_atPrefix_sameKey_witness :
    ("@alice" : String).data = '@' :: ("alice" : String).data ∧
    '@' ∉ ("alice" : String).data ∧
    sendMessage (initState 0) 0 5 stubCollab "@alice" "hi" true =
      sendMessage (initState 0) 0 5 stubCollab "alice" "hi" true :=
  ⟨by decide, by decide,
    (sendMessage_atPrefix_sameKey "@alice" "alice" (by decide) (by decide)).2
      (initState 0) 0 5 stubCollab "hi" true⟩
